import Mathlib

/-!
Verification of the graceful-shutdown lifecycle coordinator of the
`gouse` repository (`src/net/graceful/graceful.go` and its near-duplicate
`src/graceful/graceful.go`).

The Go code is embedded shallowly.  Sources of nondeterminism in a single
terminating execution of `Run` — the value `ListenAndServe` returns, the
value `Shutdown` returns, whether an OS signal arrived, and which branch
of the `select` fired — are passed in as oracle parameters, making `Run`
a pure function from (inputs, schedule) to an execution trace that records
the returned value (or escaping panic), the context handed to `Shutdown`,
the post-shutdown drain of the `serverErr` channel, and the cleanup log.
-/

namespace Gouse

/-- Go error values.  `serverClosed` stands for `http.ErrServerClosed`;
`wrap` models `fmt.Errorf`-style wrapping traversed by `errors.Is`;
`other` is any other concrete error, tagged by a code.  A Go `error`
(nil-able) is `Option GoErr`, with `none` for `nil`. -/
inductive GoErr where
  | serverClosed : GoErr
  | other : Nat → GoErr
  | wrap : GoErr → GoErr
deriving DecidableEq, Repr

/-- Whether `errors.Is(e, http.ErrServerClosed)` holds for a non-nil `e`:
true iff the wrap chain reaches `http.ErrServerClosed`. -/
def GoErr.isServerClosed : GoErr → Bool
  | .serverClosed => true
  | .wrap e => e.isServerClosed
  | .other _ => false

/-- `errors.Is(err, http.ErrServerClosed)` for a nil-able error:
`errors.Is(nil, target)` is false for non-nil target. -/
def errorsIsServerClosed : Option GoErr → Bool
  | none => false
  | some e => e.isServerClosed

/-- A Go `context.Context`, reduced to what the coordinator uses:
the ambient key/value metadata, whether its done channel has fired in
this execution, and its deadline expressed as a duration bound
(in nanoseconds, `none` = no deadline). -/
structure Context where
  values : List (Nat × Nat)
  doneFired : Bool
  deadline : Option Int
deriving DecidableEq, Repr

/-- `context.WithoutCancel`: keeps only the values; the derived context
has no done signal and no deadline. -/
def withoutCancel (c : Context) : Context :=
  { values := c.values, doneFired := false, deadline := none }

/-- `context.WithTimeout(c, d)`: adds a deadline of `d` from now, kept at
the parent's earlier deadline when one exists; cancellation state is
inherited. -/
def withTimeout (c : Context) (d : Int) : Context :=
  { c with deadline := some (match c.deadline with
      | none => d
      | some d0 => min d0 d) }

/-- `signal.NotifyContext(parent, SIGINT, SIGTERM)`: same values and
deadline as the parent; its done channel fires when the parent's does or
when one of the listed signals arrives (`sigFired`). -/
def notifyContext (parent : Context) (sigFired : Bool) : Context :=
  { parent with doneFired := parent.doneFired || sigFired }

/-- `time.Second` in nanoseconds (Go `time.Duration` units). -/
def second : Int := 1000000000

/-- `defaultShutdownTimeout = 5 * time.Second` (graceful.go line 43). -/
def defaultShutdownTimeout : Int := 5 * second

/-- An operation performed on the `serverErr` channel by the server
goroutine. -/
inductive ChanOp where
  | send : Option GoErr → ChanOp
  | close : ChanOp
deriving DecidableEq, Repr

/-- The operations the server goroutine performs on `serverErr`, given
the value `ListenAndServe` returns in this execution:
`if err := srv.ListenAndServe(); !errors.Is(err, http.ErrServerClosed) \x7b serverErr <- err \x7d; close(serverErr)`. -/
def serverGoroutine (listenResult : Option GoErr) : List ChanOp :=
  (if errorsIsServerClosed listenResult then [] else [ChanOp.send listenResult]) ++ [ChanOp.close]

/-- The values sent on the channel, in order. -/
def sentValues (ops : List ChanOp) : List (Option GoErr) :=
  ops.filterMap fun op => match op with
    | .send v => some v
    | .close => none

/-- Whether the channel has been closed. -/
def isClosed (ops : List ChanOp) : Bool :=
  ops.any fun op => match op with
    | .close => true
    | _ => false

/-- The value observed by the `n`-th receive (0-based) once the goroutine
has completed: buffered sent values in order, then — the channel being
closed — the zero value `nil` without blocking. -/
def recvValue (ops : List ChanOp) (n : Nat) : Option GoErr :=
  ((sentValues ops)[n]?).getD none

/-- One cleanup action `func()`: the atomic side effects it performs (a
list of markers appended to an execution log), followed by an optional
panic.  Go panic values observable via `recover` are non-nil, so a panic
value is modelled as a bare `Nat`. -/
structure CleanupAct where
  effects : List Nat
  panicVal : Option Nat
deriving DecidableEq, Repr

/-- The server handle, reduced to the terminal values its two blocking
methods return in the execution under consideration. -/
structure Server where
  listenResult : Option GoErr
  shutdownResult : Option GoErr
deriving DecidableEq, Repr

/-- `Config` (both graceful.go files): zero value has a zero timeout and
no cleanups. -/
structure Config where
  ShutdownTimeout : Int := 0
  Cleanups : List CleanupAct := []
deriving DecidableEq, Repr

/-- The schedule oracle: which `select` branch fired first, and whether a
SIGINT/SIGTERM arrived (feeding `signal.NotifyContext`). -/
structure Sched where
  pickDone : Bool
  sigFired : Bool
deriving DecidableEq, Repr

/-- How a call to `Run` terminates: an ordinary return value, or a panic
escaping it (re-raised from a cleanup). -/
inductive RunOutcome where
  | ret : Option GoErr → RunOutcome
  | panicked : Nat → RunOutcome
deriving DecidableEq, Repr

/-- Execution trace of one call to `Run`. -/
structure RunTrace where
  outcome : RunOutcome
  shutdownCalled : Option Context
  shutdownReturned : Option (Option GoErr)
  drained : Option (Option GoErr)
  cleanupsRan : Bool
  cleanupLog : List Nat
deriving DecidableEq, Repr

/-- The timeout computation of `Run` (net/graceful lines 97-100, graceful
lines 82-85): `timeout := defaultShutdownTimeout; if cfg.ShutdownTimeout > 0 \x7b timeout = cfg.ShutdownTimeout \x7d`. -/
def effTimeout (cfg : Config) : Int :=
  if 0 < cfg.ShutdownTimeout then cfg.ShutdownTimeout else defaultShutdownTimeout

end Gouse

namespace Gouse.NetGraceful

/-- `cleanup` (src/net/graceful/graceful.go lines 122-137): calls each fn
in order; a panic is recovered, recorded only when `panicVal == nil`
still holds, and the loop continues; returns the log of effects and the
recorded first panic value (re-raised by the caller when present). -/
def cleanup (fns : List CleanupAct) : List Nat × Option Nat :=
  fns.foldl (fun acc fn =>
    (acc.1 ++ fn.effects,
     match acc.2 with
     | some p => some p
     | none => fn.panicVal)) ([], none)

/-- `Run` (src/net/graceful/graceful.go lines 75-118), as a pure function
of the inputs and the schedule oracle. -/
def Run (parent : Context) (srv : Server) (cfg? : Option Config) (sched : Sched) : RunTrace :=
  let cfg := cfg?.getD {}
  let _ctx := notifyContext parent sched.sigFired
  let ops := serverGoroutine srv.listenResult
  if sched.pickDone then
    let timeout := effTimeout cfg
    let shutdownCtx := withTimeout (withoutCancel _ctx) timeout
    let shutdownErr := srv.shutdownResult
    let srvErr := recvValue ops 0
    let c := cleanup cfg.Cleanups
    { outcome :=
        match c.2 with
        | some v => RunOutcome.panicked v
        | none =>
          match srvErr with
          | some e => RunOutcome.ret (some e)
          | none => RunOutcome.ret shutdownErr
      shutdownCalled := some shutdownCtx
      shutdownReturned := some shutdownErr
      drained := some srvErr
      cleanupsRan := true
      cleanupLog := c.1 }
  else
    { outcome := RunOutcome.ret (recvValue ops 0)
      shutdownCalled := none
      shutdownReturned := none
      drained := none
      cleanupsRan := false
      cleanupLog := [] }

end Gouse.NetGraceful

namespace Gouse.Graceful

/-- `runCleanups` (src/graceful/graceful.go lines 123-138): identical loop
to `NetGraceful.cleanup` under the name used in that file. -/
def runCleanups (cleanups : List CleanupAct) : List Nat × Option Nat :=
  cleanups.foldl (fun acc fn =>
    (acc.1 ++ fn.effects,
     match acc.2 with
     | some p => some p
     | none => fn.panicVal)) ([], none)

/-- `Run` (src/graceful/graceful.go lines 75-118).  This variant resolves
the nil config and computes the timeout before launching the goroutine
and selecting, rather than after the cancellation branch is chosen. -/
def Run (parent : Context) (srv : Server) (cfg? : Option Config) (sched : Sched) : RunTrace :=
  let _ctx := notifyContext parent sched.sigFired
  let cfg := cfg?.getD {}
  let timeout := effTimeout cfg
  let ops := serverGoroutine srv.listenResult
  if sched.pickDone then
    let shutdownCtx := withTimeout (withoutCancel _ctx) timeout
    let shutdownErr := srv.shutdownResult
    let srvErr := recvValue ops 0
    let c := runCleanups cfg.Cleanups
    { outcome :=
        match c.2 with
        | some v => RunOutcome.panicked v
        | none =>
          match srvErr with
          | some e => RunOutcome.ret (some e)
          | none => RunOutcome.ret shutdownErr
      shutdownCalled := some shutdownCtx
      shutdownReturned := some shutdownErr
      drained := some srvErr
      cleanupsRan := true
      cleanupLog := c.1 }
  else
    { outcome := RunOutcome.ret (recvValue ops 0)
      shutdownCalled := none
      shutdownReturned := none
      drained := none
      cleanupsRan := false
      cleanupLog := [] }

end Gouse.Graceful

namespace Gouse

/-- The panic value of the first faulting action, in list order. -/
def firstPanicVal (fns : List CleanupAct) : Option Nat :=
  (fns.filterMap (·.panicVal)).head?

/-- The cleanup loop, started from an arbitrary accumulated log and
recorded panic, appends every action's effects in order and keeps the
earliest panic value. -/
theorem cleanup_loop_spec (fns : List CleanupAct) (log : List Nat) (pv : Option Nat) :
    fns.foldl (fun acc fn =>
      (acc.1 ++ fn.effects,
       match acc.2 with
       | some p => some p
       | none => fn.panicVal)) (log, pv)
    = (log ++ fns.flatMap (·.effects),
       match pv with
       | some p => some p
       | none => firstPanicVal fns) := by
  induction fns generalizing log pv with
  | nil => cases pv <;> simp [firstPanicVal]
  | cons fn rest ih =>
    cases pv with
    | some p => simp [List.foldl_cons, ih, firstPanicVal]
    | none =>
      cases hp : fn.panicVal with
      | some p => simp [List.foldl_cons, ih, firstPanicVal, List.filterMap_cons, hp]
      | none => simp [List.foldl_cons, ih, firstPanicVal, List.filterMap_cons, hp]

end Gouse

namespace Gouse

/-- C1: on the cancellation path, after `srv.Shutdown` returns —
regardless of its outcome — `Run` performs exactly one further receive
from the `serverErr` holder (the trace's `drained` field) before
composing its result; hence when the service failed concurrently with
cancellation, the final result is that service failure, never silently
nil. -/
theorem run_drains_once_and_returns_concurrent_failure
    (parent : Context) (srv : Server) (cfg? : Option Config) (sched : Sched) (e : GoErr)
    (hc : sched.pickDone = true)
    (hl : srv.listenResult = some e)
    (he : e.isServerClosed = false)
    (hnp : (NetGraceful.cleanup (cfg?.getD {}).Cleanups).2 = none) :
    (NetGraceful.Run parent srv cfg? sched).drained = some (some e)
    ∧ (NetGraceful.Run parent srv cfg? sched).outcome = RunOutcome.ret (some e) := by
  simp [NetGraceful.Run, hc, hl, hnp, recvValue, serverGoroutine, sentValues,
    errorsIsServerClosed, he]

/-- C2: on the cancellation path, when both the drained service failure
and the shutdown failure are non-nil, `Run` returns the service failure,
not the shutdown failure. -/
theorem run_service_failure_beats_shutdown_failure
    (parent : Context) (srv : Server) (cfg? : Option Config) (sched : Sched) (e e' : GoErr)
    (hc : sched.pickDone = true)
    (hl : srv.listenResult = some e)
    (he : e.isServerClosed = false)
    (hs : srv.shutdownResult = some e')
    (hnp : (NetGraceful.cleanup (cfg?.getD {}).Cleanups).2 = none) :
    (NetGraceful.Run parent srv cfg? sched).shutdownReturned = some (some e')
    ∧ (NetGraceful.Run parent srv cfg? sched).drained = some (some e)
    ∧ (NetGraceful.Run parent srv cfg? sched).outcome = RunOutcome.ret (some e) := by
  simp [NetGraceful.Run, hc, hl, hs, hnp, recvValue, serverGoroutine, sentValues,
    errorsIsServerClosed, he]

/-- C3: for every cleanup list in which some action panics, the panic is
caught locally, every remaining action still executes (all effects appear
in order), the first panic value is recorded — later ones discarded — and
`Run` re-raises it as a panic (`RunOutcome.panicked`), not as an ordinary
error return. -/
theorem cleanup_runs_all_and_reraises_first_panic
    (fns : List CleanupAct) (v : Nat)
    (parent : Context) (srv : Server) (sched : Sched)
    (hv : firstPanicVal fns = some v)
    (hc : sched.pickDone = true) :
    (NetGraceful.cleanup fns).1 = fns.flatMap (·.effects)
    ∧ (NetGraceful.cleanup fns).2 = some v
    ∧ (NetGraceful.Run parent srv (some (Config.mk 0 fns)) sched).outcome
        = RunOutcome.panicked v := by
  refine ⟨?_, ?_, ?_⟩
  · simp [NetGraceful.cleanup, cleanup_loop_spec]
  · simp [NetGraceful.cleanup, cleanup_loop_spec, hv]
  · simp [NetGraceful.Run, hc, NetGraceful.cleanup, cleanup_loop_spec, hv]

/-- C4: when the service outcome (a non-clean-stop return from
`ListenAndServe`) is observed before cancellation, `Run` returns that
value immediately; `srv.Shutdown` and the cleanup actions are never
invoked. -/
theorem run_failure_first_skips_shutdown_and_cleanups
    (parent : Context) (srv : Server) (cfg? : Option Config) (sched : Sched) (e : GoErr)
    (hp : sched.pickDone = false)
    (hl : srv.listenResult = some e)
    (he : e.isServerClosed = false) :
    (NetGraceful.Run parent srv cfg? sched).outcome = RunOutcome.ret (some e)
    ∧ (NetGraceful.Run parent srv cfg? sched).shutdownCalled = none
    ∧ (NetGraceful.Run parent srv cfg? sched).cleanupsRan = false
    ∧ (NetGraceful.Run parent srv cfg? sched).cleanupLog = [] := by
  simp [NetGraceful.Run, hp, hl, recvValue, serverGoroutine, sentValues,
    errorsIsServerClosed, he]

/-- C5: on the cancellation path, `Run` executes every configured cleanup
action, each exactly once and strictly in list order (the log equals the
in-order concatenation of the actions' effects), regardless of whether
the shutdown step succeeded or failed. -/
theorem run_cancel_path_runs_cleanups_in_order
    (parent : Context) (srv : Server) (cfg? : Option Config) (sched : Sched)
    (hc : sched.pickDone = true) :
    (NetGraceful.Run parent srv cfg? sched).cleanupsRan = true
    ∧ (NetGraceful.Run parent srv cfg? sched).cleanupLog
        = ((cfg?.getD {}).Cleanups).flatMap (·.effects) := by
  simp [NetGraceful.Run, hc, NetGraceful.cleanup, cleanup_loop_spec]

end Gouse

namespace Gouse

/-- C6: a nil config, and any config whose shutdown timeout is zero or
negative, drive the shutdown scope with the 5-second default — behaving
identically to an explicit 5-second setting with the same cleanups — and
a nil config additionally runs no cleanups. -/
theorem run_default_shutdown_timeout
    (parent : Context) (srv : Server) (sched : Sched) (t : Int) (cs : List CleanupAct)
    (ht : t ≤ 0) :
    NetGraceful.Run parent srv none sched
      = NetGraceful.Run parent srv (some (Config.mk defaultShutdownTimeout [])) sched
    ∧ NetGraceful.Run parent srv (some (Config.mk t cs)) sched
      = NetGraceful.Run parent srv (some (Config.mk defaultShutdownTimeout cs)) sched
    ∧ (NetGraceful.Run parent srv none sched).cleanupLog = [] := by
  have h5 : (0:Int) < defaultShutdownTimeout := by norm_num [defaultShutdownTimeout, second]
  have hnt : ¬ (0:Int) < t := not_lt.mpr ht
  obtain ⟨pd, sf⟩ := sched
  cases pd <;>
    simp [NetGraceful.Run, effTimeout, h5, hnt, NetGraceful.cleanup]

/-- C7: the bounded scope handed to `srv.Shutdown` does not inherit the
already-fired cancellation — its done signal is unfired even though the
coordinator's context has fired — auto-cancels only after the computed
timeout, and carries the parent's ambient key/value metadata unchanged. -/
theorem run_shutdown_scope_fresh_with_parent_values
    (parent : Context) (srv : Server) (cfg? : Option Config) (sched : Sched)
    (hc : sched.pickDone = true)
    (hd : (notifyContext parent sched.sigFired).doneFired = true) :
    (NetGraceful.Run parent srv cfg? sched).shutdownCalled
      = some (Context.mk parent.values false (some (effTimeout (cfg?.getD {})))) := by
  simp [NetGraceful.Run, hc, withTimeout, withoutCancel, notifyContext]

/-- C8: the server goroutine writes the `serverErr` holder at most once —
no write when `ListenAndServe` returns the clean-stop sentinel (matched
through the `errors.Is` wrap chain), exactly one write of the returned
value otherwise — and then closes it, so a second receive observes the
zero value `nil` rather than blocking. -/
theorem serverErr_written_at_most_once_then_closed (e : Option GoErr) :
    sentValues (serverGoroutine e) = (if errorsIsServerClosed e then [] else [e])
    ∧ (sentValues (serverGoroutine e)).length ≤ 1
    ∧ isClosed (serverGoroutine e) = true
    ∧ recvValue (serverGoroutine e) 1 = none := by
  cases h : errorsIsServerClosed e <;>
    simp [serverGoroutine, sentValues, isClosed, recvValue, h]

/-- C9: when `ListenAndServe` returns nil before any cancellation is
observed, the goroutine sends that nil (nil is not the clean-stop
sentinel under `errors.Is`), `Run` takes the failure branch and returns
nil — indistinguishable from a successful graceful stop — and neither
`srv.Shutdown` nor the cleanups are invoked. -/
theorem run_nil_listen_result_looks_like_success
    (parent : Context) (srv : Server) (cfg? : Option Config) (sched : Sched)
    (hp : sched.pickDone = false)
    (hn : srv.listenResult = none) :
    sentValues (serverGoroutine srv.listenResult) = [none]
    ∧ (NetGraceful.Run parent srv cfg? sched).outcome = RunOutcome.ret none
    ∧ (NetGraceful.Run parent srv cfg? sched).shutdownCalled = none
    ∧ (NetGraceful.Run parent srv cfg? sched).cleanupsRan = false := by
  simp [NetGraceful.Run, hp, hn, recvValue, serverGoroutine, sentValues, errorsIsServerClosed]

/-- C10: the coordinator in `src/net/graceful` and the one in
`src/graceful` are behaviourally equivalent: identical traces on every
input and schedule — same result, same shutdown scope, same drain — and
their cleanup runners agree on every action list. -/
theorem net_and_root_graceful_equivalent
    (parent : Context) (srv : Server) (cfg? : Option Config) (sched : Sched)
    (fns : List CleanupAct) :
    NetGraceful.Run parent srv cfg? sched = Graceful.Run parent srv cfg? sched
    ∧ NetGraceful.cleanup fns = Graceful.runCleanups fns :=
  ⟨rfl, rfl⟩

end Gouse

namespace Gouse

/-- Concrete instance of the C1 theorem: a service failure tagged 7
racing a chosen cancellation is drained and returned. -/
theorem run_drains_once_and_returns_concurrent_failure_check :
    (NetGraceful.Run (Context.mk [] false none) (Server.mk (some (GoErr.other 7)) none)
        none (Sched.mk true true)).drained = some (some (GoErr.other 7))
    ∧ (NetGraceful.Run (Context.mk [] false none) (Server.mk (some (GoErr.other 7)) none)
        none (Sched.mk true true)).outcome = RunOutcome.ret (some (GoErr.other 7)) :=
  run_drains_once_and_returns_concurrent_failure (Context.mk [] false none)
    (Server.mk (some (GoErr.other 7)) none) none (Sched.mk true true)
    (GoErr.other 7) rfl rfl rfl rfl

/-- Concrete instance of the C2 theorem: service failure 7 wins over
shutdown failure 9. -/
theorem run_service_failure_beats_shutdown_failure_check :
    (NetGraceful.Run (Context.mk [] false none)
        (Server.mk (some (GoErr.other 7)) (some (GoErr.other 9)))
        none (Sched.mk true true)).shutdownReturned = some (some (GoErr.other 9))
    ∧ (NetGraceful.Run (Context.mk [] false none)
        (Server.mk (some (GoErr.other 7)) (some (GoErr.other 9)))
        none (Sched.mk true true)).drained = some (some (GoErr.other 7))
    ∧ (NetGraceful.Run (Context.mk [] false none)
        (Server.mk (some (GoErr.other 7)) (some (GoErr.other 9)))
        none (Sched.mk true true)).outcome = RunOutcome.ret (some (GoErr.other 7)) :=
  run_service_failure_beats_shutdown_failure (Context.mk [] false none)
    (Server.mk (some (GoErr.other 7)) (some (GoErr.other 9))) none (Sched.mk true true)
    (GoErr.other 7) (GoErr.other 9) rfl rfl rfl rfl rfl

/-- Concrete instance of the C3 theorem: actions [logs 1, panics 42,
logs 2 then panics 5] produce the full log [1, 2], record 42, and `Run`
re-raises 42. -/
theorem cleanup_runs_all_and_reraises_first_panic_check :
    (NetGraceful.cleanup
        [CleanupAct.mk [1] none, CleanupAct.mk [] (some 42), CleanupAct.mk [2] (some 5)]).1
      = [1, 2]
    ∧ (NetGraceful.cleanup
        [CleanupAct.mk [1] none, CleanupAct.mk [] (some 42), CleanupAct.mk [2] (some 5)]).2
      = some 42
    ∧ (NetGraceful.Run (Context.mk [] false none) (Server.mk (some GoErr.serverClosed) none)
        (some (Config.mk 0
          [CleanupAct.mk [1] none, CleanupAct.mk [] (some 42), CleanupAct.mk [2] (some 5)]))
        (Sched.mk true true)).outcome
      = RunOutcome.panicked 42 :=
  cleanup_runs_all_and_reraises_first_panic
    [CleanupAct.mk [1] none, CleanupAct.mk [] (some 42), CleanupAct.mk [2] (some 5)] 42
    (Context.mk [] false none) (Server.mk (some GoErr.serverClosed) none)
    (Sched.mk true true) rfl rfl

/-- Concrete instance of the C4 theorem: an immediate failure tagged 3 is
returned with no shutdown and no cleanups. -/
theorem run_failure_first_skips_shutdown_and_cleanups_check :
    (NetGraceful.Run (Context.mk [] false none) (Server.mk (some (GoErr.other 3)) none)
        none (Sched.mk false false)).outcome = RunOutcome.ret (some (GoErr.other 3))
    ∧ (NetGraceful.Run (Context.mk [] false none) (Server.mk (some (GoErr.other 3)) none)
        none (Sched.mk false false)).shutdownCalled = none
    ∧ (NetGraceful.Run (Context.mk [] false none) (Server.mk (some (GoErr.other 3)) none)
        none (Sched.mk false false)).cleanupsRan = false
    ∧ (NetGraceful.Run (Context.mk [] false none) (Server.mk (some (GoErr.other 3)) none)
        none (Sched.mk false false)).cleanupLog = [] :=
  run_failure_first_skips_shutdown_and_cleanups (Context.mk [] false none)
    (Server.mk (some (GoErr.other 3)) none) none (Sched.mk false false)
    (GoErr.other 3) rfl rfl rfl

/-- Concrete instance of the C5 theorem: cleanups [A, B, C] logging 1, 2,
3 produce the log [1, 2, 3] on a clean cancellation run. -/
theorem run_cancel_path_runs_cleanups_in_order_check :
    (NetGraceful.Run (Context.mk [] false none) (Server.mk (some GoErr.serverClosed) none)
        (some (Config.mk 0
          [CleanupAct.mk [1] none, CleanupAct.mk [2] none, CleanupAct.mk [3] none]))
        (Sched.mk true true)).cleanupsRan = true
    ∧ (NetGraceful.Run (Context.mk [] false none) (Server.mk (some GoErr.serverClosed) none)
        (some (Config.mk 0
          [CleanupAct.mk [1] none, CleanupAct.mk [2] none, CleanupAct.mk [3] none]))
        (Sched.mk true true)).cleanupLog = [1, 2, 3] :=
  run_cancel_path_runs_cleanups_in_order (Context.mk [] false none)
    (Server.mk (some GoErr.serverClosed) none)
    (some (Config.mk 0
      [CleanupAct.mk [1] none, CleanupAct.mk [2] none, CleanupAct.mk [3] none]))
    (Sched.mk true true) rfl

/-- Concrete instance of the C6 theorem at timeout 0 and one cleanup. -/
theorem run_default_shutdown_timeout_check :
    NetGraceful.Run (Context.mk [] false none) (Server.mk (some GoErr.serverClosed) none)
        none (Sched.mk true true)
      = NetGraceful.Run (Context.mk [] false none) (Server.mk (some GoErr.serverClosed) none)
        (some (Config.mk defaultShutdownTimeout [])) (Sched.mk true true)
    ∧ NetGraceful.Run (Context.mk [] false none) (Server.mk (some GoErr.serverClosed) none)
        (some (Config.mk 0 [CleanupAct.mk [4] none])) (Sched.mk true true)
      = NetGraceful.Run (Context.mk [] false none) (Server.mk (some GoErr.serverClosed) none)
        (some (Config.mk defaultShutdownTimeout [CleanupAct.mk [4] none])) (Sched.mk true true)
    ∧ (NetGraceful.Run (Context.mk [] false none) (Server.mk (some GoErr.serverClosed) none)
        none (Sched.mk true true)).cleanupLog = [] :=
  run_default_shutdown_timeout (Context.mk [] false none)
    (Server.mk (some GoErr.serverClosed) none) (Sched.mk true true)
    0 [CleanupAct.mk [4] none] (by decide)

/-- Concrete instance of the C7 theorem: with the parent carrying the
pair (1, 2) and a signal having fired, the shutdown scope has unfired
cancellation, the same values, and the default 5-second bound. -/
theorem run_shutdown_scope_fresh_with_parent_values_check :
    (NetGraceful.Run (Context.mk [(1, 2)] false none)
        (Server.mk (some GoErr.serverClosed) none) none (Sched.mk true true)).shutdownCalled
      = some (Context.mk [(1, 2)] false (some defaultShutdownTimeout)) :=
  run_shutdown_scope_fresh_with_parent_values (Context.mk [(1, 2)] false none)
    (Server.mk (some GoErr.serverClosed) none) none (Sched.mk true true) rfl rfl

/-- Concrete instance of the C9 theorem: a nil return from
`ListenAndServe` observed before cancellation is sent, returned as nil,
and skips shutdown and cleanups. -/
theorem run_nil_listen_result_looks_like_success_check :
    sentValues (serverGoroutine (Server.mk none none).listenResult) = [none]
    ∧ (NetGraceful.Run (Context.mk [] false none) (Server.mk none none)
        none (Sched.mk false false)).outcome = RunOutcome.ret none
    ∧ (NetGraceful.Run (Context.mk [] false none) (Server.mk none none)
        none (Sched.mk false false)).shutdownCalled = none
    ∧ (NetGraceful.Run (Context.mk [] false none) (Server.mk none none)
        none (Sched.mk false false)).cleanupsRan = false :=
  run_nil_listen_result_looks_like_success (Context.mk [] false none)
    (Server.mk none none) none (Sched.mk false false) rfl rfl

end Gouse
